import Mathlib

/-!
Verification development for the EmojiHub authorization core: a shallow
embedding of the token service (src/src/auth/token_service.py), the auth
service (src/src/auth/service.py), the permission service and repository
(src/EmojiHub/src/permission/service.py,
src/EmojiHub/src/permission/repositories/permission.py), the request
guards (src/src/protection.py), the exception-to-status boundary
(src/EmojiHub/src/handlers.py) and the password hashing helper
(src/EmojiHub/src/user/hash.py).

JWT signing is modelled symbolically: a signature is a constructor
applied to the key, the algorithm and the claims, so that signature
verification is decidable equality and the signing function is
collision-free. Wall-clock readings are explicit integer parameters:
one parameter per call of datetime.now in the source. Effects on the
external stores are made explicit (the user store and the permission
store are passed as values; operations that the source performs against
the database session return the updated store value).
-/

namespace EmojiHub

/-- Configured access token lifetime in seconds
(src/EmojiHub/src/config/jwt_config.py, default 3600). -/
def ACCESS_TOKEN_LIFETIME : Int := 3600

/-- Configured refresh token lifetime in seconds
(src/EmojiHub/src/config/jwt_config.py, default 86400). -/
def REFRESH_TOKEN_LIFETIME : Int := 86400

/-- Modelled from the spec: the module src/config/security (referenced as
`settings` by token_service.py and hash.py) is not in the tree. The spec
fixes one configured symmetric algorithm (it gives HS256 as the example)
and one configured secret key; only their fixedness matters to any claim,
never their concrete values. -/
def ALGORITHM : String := "HS256"

/-- Modelled from the spec: the configured secret key, see `ALGORITHM`. -/
def SECRET_KEY : String := "server-secret-key"

/-- User block embedded in a token payload (src/auth/dto.py, TokenUser). -/
structure TokenUser where
  user_id : Int
  user_name : String
deriving DecidableEq

/-- JWT claims payload (src/auth/dto.py, TokenPayload). The embedding
models exactly the claim schema the service encodes: token_type, user,
exp, iat. -/
structure TokenPayload where
  token_type : String
  user : TokenUser
  exp : Int
  iat : Int
deriving DecidableEq

/-- Symbolic signature value. A genuine signature records the key, the
algorithm and the signed claims; `forged` stands for any byte string that
is not a signature produced with the configured key. -/
inductive Sig where
  | hmac (key : String) (alg : String) (payload : TokenPayload)
  | forged (n : Nat)
deriving DecidableEq

/-- A structurally well-formed JWT: header algorithm, claims, signature. -/
structure JwtToken where
  alg : String
  payload : TokenPayload
  sig : Sig
deriving DecidableEq

/-- A token string on the wire: either unparseable as a JWT, or a
structurally well-formed JWT. -/
inductive Wire where
  | malformed (s : String)
  | token (t : JwtToken)
deriving DecidableEq

/-- The PyJWT error classes relevant to the service, all subclasses of
PyJWTError in the library. -/
inductive PyJWTError where
  | decodeError
  | invalidAlgorithm
  | invalidSignature
  | expiredSignature
deriving DecidableEq

/-- PyJWT encode: serialize the claims and sign them with the key under
the given algorithm; the algorithm name is written into the header. -/
def jwtEncode (payload : TokenPayload) (key : String) (alg : String) : Wire :=
  Wire.token { alg := alg, payload := payload, sig := Sig.hmac key alg payload }

/-- PyJWT get_unverified_header, restricted to the alg field: parses the
header without verifying anything; raises a DecodeError (a PyJWTError)
on an unparseable token. -/
def getUnverifiedHeaderAlg : Wire → Except PyJWTError String
  | Wire.malformed _ => Except.error PyJWTError.decodeError
  | Wire.token t => Except.ok t.alg

/-- PyJWT decode with a key and an allow-list of algorithms, in the order
the library performs the checks: parse, check the header algorithm is
allowed, verify the signature, then validate the exp claim (with zero
leeway the library treats exp less than or equal to now as expired). -/
def jwtDecode (now : Int) (w : Wire) (key : String) (algorithms : List String) :
    Except PyJWTError TokenPayload :=
  match w with
  | Wire.malformed _ => Except.error PyJWTError.decodeError
  | Wire.token t =>
    if t.alg ∈ algorithms then
      if t.sig = Sig.hmac key t.alg t.payload then
        if t.payload.exp ≤ now then Except.error PyJWTError.expiredSignature
        else Except.ok t.payload
      else Except.error PyJWTError.invalidSignature
    else Except.error PyJWTError.invalidAlgorithm

/-- The exception classes of src/auth/exceptions.py. All four are
subclasses of AuthError and of nothing else; in particular the custom
InvalidSignatureError is not a PyJWTError, unlike the PyJWT class of the
same name that it shadows. -/
inductive AuthError where
  | InvalidCredentials
  | InvalidToken
  | TokenExpired
  | InvalidSignatureError
deriving DecidableEq

/-- TokenService.decode_token (token_service.py lines 92 to 116),
inlining _validate_token (lines 53 to 75). The try block covers both
_validate_token and the PyJWT decode call. get_unverified_header raising
a PyJWTError is caught by the except PyJWTError clause and re-raised as
InvalidToken. The custom InvalidSignatureError raised by _validate_token
on an algorithm mismatch is neither an ExpiredSignatureError nor a
PyJWTError, so it escapes both except clauses and propagates as itself.
ExpiredSignatureError from the PyJWT decode becomes TokenExpired, and
every other PyJWTError becomes InvalidToken. -/
def decode_token (now : Int) (w : Wire) : Except AuthError TokenPayload :=
  match getUnverifiedHeaderAlg w with
  | Except.error _ => Except.error AuthError.InvalidToken
  | Except.ok alg =>
    if alg = ALGORITHM then
      match jwtDecode now w SECRET_KEY [ALGORITHM] with
      | Except.error PyJWTError.expiredSignature => Except.error AuthError.TokenExpired
      | Except.error _ => Except.error AuthError.InvalidToken
      | Except.ok p => Except.ok p
    else Except.error AuthError.InvalidSignatureError

/-- Symbolic Argon2 digest: a digest determines, and is determined by,
the salt and the password that produced it (the primitive is modelled as
collision-free and deterministic, which is how the argon2 library
behaves for a fixed salt and fixed parameters). -/
inductive Digest where
  | argon2 (salt : String) (password : String)
deriving DecidableEq

/-- The argon2 PasswordHasher.hash entry point. The library draws a
fresh random salt only when the caller supplies none; `rngSalt` is the
salt the internal RNG would produce for this particular call, and it is
used only in that case. -/
def hasherHash (password : String) (salt : Option String) (rngSalt : String) : Digest :=
  match salt with
  | some s => Digest.argon2 s password
  | none => Digest.argon2 rngSalt password

/-- hash_password (src/EmojiHub/src/user/hash.py lines 7 to 21): the
salt is fixed to the configured secret key, so the RNG reading of the
call is never consulted. -/
def hash_password (rngSalt : String) (password : String) : Digest :=
  hasherHash password (some SECRET_KEY) rngSalt

/-- User record as returned by the user repository
(src/src/user/dto.py, UserDTO). The stored password is a digest. -/
structure UserDTO where
  id : Int
  name : String
  surname : String
  login : String
  password : Digest
  is_admin : Bool
deriving DecidableEq

/-- Registration-time user data (src/src/user/entity.py, UserEntity),
with the password still in plaintext. -/
structure UserEntity where
  name : String
  surname : String
  login : String
  password : String
  is_admin : Bool
deriving DecidableEq

/-- UserService.create (src/src/user/service.py lines 35 to 51): hashes
the entity password with hash_password and persists the user; `newId` is
the primary key the database assigns, `rngSalt` the RNG reading of the
hashing call (unused, since hash_password fixes the salt). -/
def user_service_create (rngSalt : String) (newId : Int) (entity : UserEntity) : UserDTO :=
  { id := newId
    name := entity.name
    surname := entity.surname
    login := entity.login
    password := hash_password rngSalt entity.password
    is_admin := entity.is_admin }

/-- TokenService.encode_token (token_service.py lines 77 to 90). -/
def encode_token (payload : TokenPayload) : Wire :=
  jwtEncode payload SECRET_KEY ALGORITHM

/-- TokenService.generate_access_token (token_service.py lines 118 to
139). The source reads the clock twice: the exp claim uses the first
datetime.now call (`tExp`), the iat claim uses the second (`tIat`),
evaluated in that order, so tExp is never later than tIat. -/
def generate_access_token (tExp tIat : Int) (dto : UserDTO) : Wire :=
  encode_token
    { token_type := "access"
      user := { user_id := dto.id, user_name := dto.name }
      exp := tExp + ACCESS_TOKEN_LIFETIME
      iat := tIat }

/-- TokenService.generate_refresh_token (token_service.py lines 141 to
162), with the same two clock reads as generate_access_token. -/
def generate_refresh_token (tExp tIat : Int) (dto : UserDTO) : Wire :=
  encode_token
    { token_type := "refresh"
      user := { user_id := dto.id, user_name := dto.name }
      exp := tExp + REFRESH_TOKEN_LIFETIME
      iat := tIat }

/-- Pair of tokens returned by TokenService.create_tokens
(src/auth/dto.py, TokenDTO). -/
structure TokenDTO where
  access_token : Wire
  refresh_token : Wire
deriving DecidableEq

/-- Result of AuthService.refresh (src/auth/dto.py, AccessTokenDTO): the
DTO carries a single token field and nothing else. -/
structure AccessTokenDTO where
  access_token : Wire
deriving DecidableEq

/-- TokenService.create_tokens (token_service.py lines 35 to 51): the
access token is generated first (clock reads `ta1`, `ta2`), then the
refresh token (clock reads `tr1`, `tr2`). -/
def create_tokens (ta1 ta2 tr1 tr2 : Int) (dto : UserDTO) : TokenDTO :=
  { access_token := generate_access_token ta1 ta2 dto
    refresh_token := generate_refresh_token tr1 tr2 dto }

/-- The user store, as the core sees it: the rows of the users table. -/
abbrev UserStore := List UserDTO

/-- Typed failures that cross the auth service boundary. -/
inductive AppError where
  | auth (e : AuthError)
  | userNotFound
deriving DecidableEq

/-- UserRepository.get (src/src/user/repositories/user.py lines 129 to
149): selects by primary key and raises UserNotFound when no row
matches; it never returns None. UserService.get forwards it unchanged. -/
def repository_get (store : UserStore) (pk : Int) : Except AppError UserDTO :=
  match store.find? (fun u => u.id == pk) with
  | none => Except.error AppError.userNotFound
  | some u => Except.ok u

/-- Observable effects against the external stores, recorded in order:
a user-store lookup by primary key, and the issuance of a token pair for
a user id. -/
inductive Eff where
  | userLookup (pk : Int)
  | tokenIssue (uid : Int)
deriving DecidableEq

/-- AuthService.refresh (src/src/auth/service.py lines 60 to 90):
decode the presented token (propagating the decode failure), reject it
with InvalidToken when its token_type is not refresh, re-fetch the user
by the embedded id (UserNotFound when absent; the None check in the
source is unreachable because the repository raises), then build a fresh
token pair with create_tokens and return only its access token. The
second component records the store lookups and issuances performed. -/
def refresh (store : UserStore) (now ta1 ta2 tr1 tr2 : Int) (w : Wire) :
    Except AppError AccessTokenDTO × List Eff :=
  match decode_token now w with
  | Except.error e => (Except.error (AppError.auth e), [])
  | Except.ok payload =>
    if payload.token_type = "refresh" then
      match repository_get store payload.user.user_id with
      | Except.error e => (Except.error e, [Eff.userLookup payload.user.user_id])
      | Except.ok user =>
        (Except.ok { access_token := (create_tokens ta1 ta2 tr1 tr2 user).access_token },
         [Eff.userLookup payload.user.user_id, Eff.tokenIssue user.id])
    else (Except.error (AppError.auth AuthError.InvalidToken), [])

/-- AuthService.get_current_user (src/src/auth/service.py lines 92 to
114): decode the access token, then fetch the user by the embedded id.
The None check on the user claim in the source cannot fire on payloads
of the modelled schema, which always carry the user block. -/
def get_current_user (store : UserStore) (now : Int) (w : Wire) : Except AppError UserDTO :=
  match decode_token now w with
  | Except.error e => Except.error (AppError.auth e)
  | Except.ok payload => repository_get store payload.user.user_id

/-- authenticated_user (src/src/protection.py lines 11 to 33): 401 when
the header is missing, and 401 for every exception get_current_user
raises, whatever its class, because the except clause catches Exception.
The error component is the HTTP status of the HTTPException raised. -/
def authenticated_user (store : UserStore) (now : Int) (access_token : Option Wire) :
    Except Nat UserDTO :=
  match access_token with
  | none => Except.error 401
  | some w =>
    match get_current_user store now w with
    | Except.error _ => Except.error 401
    | Except.ok u => Except.ok u

/-- State owned by the permission store: the names of the existing
permissions (unique, per the table constraint), the ids of the existing
users, and for each user id the list user.permissions of held permission
names (association list; absent user ids hold the empty list). -/
structure PermState where
  permissions : List String
  users : List Int
  held : List (Int × List String)
deriving DecidableEq

/-- The ORM collection user.permissions for a user id, as a name list. -/
def heldOf (st : PermState) (uid : Int) : List String :=
  match st.held.find? (fun e => e.1 == uid) with
  | some e => e.2
  | none => []

/-- PermissionRepository.get_user_permissions (permission.py lines 76 to
88): the set of permission names joined to the user row. -/
def get_user_permissions (st : PermState) (uid : Int) : Finset String :=
  (heldOf st uid).toFinset

/-- PermissionService.check_user_permissions (service.py lines 62 to
76), instrumented: the first component is the returned Bool, the second
records whether the repository was queried. An empty required set
returns True at once without touching the store; otherwise the required
set must be a subset of the held set. -/
def check_user_permissions (st : PermState) (user_id : Int) (required : Finset String) :
    Bool × Bool :=
  if required = ∅ then (true, false)
  else (decide (required ⊆ get_user_permissions st user_id), true)

/-- PermissionChecker.__call__ (src/src/protection.py lines 58 to 81):
raises HTTPException 403 when check_user_permissions returns False,
otherwise returns the user unchanged. The error component is the HTTP
status raised. -/
def permission_checker_call (st : PermState) (required : Finset String) (user : UserDTO) :
    Except Nat UserDTO :=
  if (check_user_permissions st user.id required).1 then Except.ok user
  else Except.error 403

/-- Typed failures of the permission repository. -/
inductive PermError where
  | UserNotFound
  | PermissionNotFound
deriving DecidableEq

/-- Replace (or insert) the held list of one user id. -/
def updateHeld (held : List (Int × List String)) (uid : Int) (ps : List String) :
    List (Int × List String) :=
  if held.any (fun e => e.1 == uid) then
    held.map (fun e => if e.1 == uid then (uid, ps) else e)
  else (uid, ps) :: held

/-- PermissionRepository.assign_to_user (permission.py lines 90 to 112):
UserNotFound when the user row is absent, PermissionNotFound when no
permission has that name, and otherwise append the permission to
user.permissions only when it is not already present (membership of ORM
row objects coincides with name membership, names being unique). -/
def assign_to_user (st : PermState) (uid : Int) (pname : String) :
    Except PermError PermState :=
  if uid ∈ st.users then
    if pname ∈ st.permissions then
      if pname ∈ heldOf st uid then Except.ok st
      else Except.ok { st with held := updateHeld st.held uid (heldOf st uid ++ [pname]) }
    else Except.error PermError.PermissionNotFound
  else Except.error PermError.UserNotFound

/-- PermissionRepository.revoke_from_user (permission.py lines 114 to
136): same existence checks as assign_to_user, then remove the
permission from user.permissions only when it is present. -/
def revoke_from_user (st : PermState) (uid : Int) (pname : String) :
    Except PermError PermState :=
  if uid ∈ st.users then
    if pname ∈ st.permissions then
      if pname ∈ heldOf st uid then
        Except.ok { st with held := updateHeld st.held uid ((heldOf st uid).erase pname) }
      else Except.ok st
    else Except.error PermError.PermissionNotFound
  else Except.error PermError.UserNotFound

/-- The exception classes that can reach the application-level handlers
of src/EmojiHub/src/handlers.py, one constructor per class (or per
relevant subclass). Subclass facts come from the exceptions modules in
the tree: UserNotFound and PermissionNotFound extend NotFoundException,
PermissionAlreadyExists extends AlreadyExistError, the four auth errors
extend AuthError, UserIsNotUnique extends SeveralAnswersFoundException,
and PermissionDenied extends only Exception. -/
inductive Exc where
  | AlreadyExistError
  | PermissionAlreadyExists
  | AuthFailure (e : AuthError)
  | UserNotFoundExc
  | PermissionNotFoundExc
  | NotFoundOther
  | PaginationError
  | SeveralAnswersFound
  | ValidationError
  | ParsingError
  | LoginFailedError
  | FabricsNotFound
  | PermissionDeniedExc
  | OtherException
deriving DecidableEq

/-- add_handlers (src/EmojiHub/src/handlers.py lines 14 to 85), as the
framework dispatches it: the handler registered for the most specific
class of the raised exception runs. AlreadyExistError maps to 409,
AuthError to 401, NotFoundException to 404, PaginationError,
SeveralAnswersFoundException and ValidationError to 400, ParsingError,
LoginFailedError and FabricsNotFound to 500, and everything else,
including the PermissionDenied class, which no dedicated handler
covers, falls to the Exception catch-all at 500. -/
def handler_status : Exc → Nat
  | Exc.AlreadyExistError => 409
  | Exc.PermissionAlreadyExists => 409
  | Exc.AuthFailure _ => 401
  | Exc.UserNotFoundExc => 404
  | Exc.PermissionNotFoundExc => 404
  | Exc.NotFoundOther => 404
  | Exc.PaginationError => 400
  | Exc.SeveralAnswersFound => 400
  | Exc.ValidationError => 400
  | Exc.ParsingError => 500
  | Exc.LoginFailedError => 500
  | Exc.FabricsNotFound => 500
  | Exc.PermissionDeniedExc => 500
  | Exc.OtherException => 500

/-- The claims block of a wire token, when it parses as a JWT. -/
def payloadOf : Wire → Option TokenPayload
  | Wire.malformed _ => none
  | Wire.token t => some t.payload

/-- A sample token user for concrete evaluations. -/
def sampleUser : TokenUser := { user_id := 1, user_name := "alice" }

/-- A sample claims payload for concrete evaluations. -/
def samplePayload : TokenPayload :=
  { token_type := "access", user := sampleUser, exp := 3600, iat := 0 }

/-- A sample stored user record for concrete evaluations. -/
def sampleDTO : UserDTO :=
  { id := 1, name := "alice", surname := "smith", login := "alice"
    password := Digest.argon2 "server-secret-key" "pw12345678", is_admin := false }

/-- A token whose exp lies in the past and whose signature does not
verify under the configured key. -/
def tamperedExpiredToken : JwtToken :=
  { alg := ALGORITHM
    payload := { token_type := "access", user := sampleUser, exp := 0, iat := 0 }
    sig := Sig.forged 0 }

/-- A sample permission store state in which user 1 already holds the
permission emoji:create. -/
def samplePermState : PermState :=
  { permissions := ["emoji:create"], users := [1], held := [(1, ["emoji:create"])] }

/-- A sample permission store state in which user 1 exists but holds no
permission. -/
def samplePermStateEmpty : PermState :=
  { permissions := ["emoji:create"], users := [1], held := [] }

/-- A sample registration entity for concrete evaluations. -/
def sampleEntity : UserEntity :=
  { name := "alice", surname := "smith", login := "alice"
    password := "pw12345678", is_admin := false }

/-- A second sample registration entity with the same password as
sampleEntity but different identity fields. -/
def sampleEntity2 : UserEntity :=
  { name := "bob", surname := "jones", login := "bob"
    password := "pw12345678", is_admin := false }

/-- C1 (counterexample): a token whose unverified header declares the
algorithm none, different from the configured algorithm, makes
decode_token fail with the custom InvalidSignatureError, which is a
different error class from InvalidToken — the claim, which demands
InvalidToken there, is false on this input. -/
theorem c1_counterexample :
    decode_token 0 (Wire.token { alg := "none", payload := samplePayload, sig := Sig.forged 0 })
      = Except.error AuthError.InvalidSignatureError ∧
    AuthError.InvalidSignatureError ≠ AuthError.InvalidToken :=
  ⟨rfl, by decide⟩

/-- C1 (amended): for every token whose unverified header declares an
algorithm different from the configured one, decode_token fails with
InvalidSignatureError — a distinct AuthError subclass that escapes the
except PyJWTError clause — rather than with InvalidToken. -/
theorem c1_alg_mismatch (now : Int) (t : JwtToken) (h : t.alg ≠ ALGORITHM) :
    decode_token now (Wire.token t) = Except.error AuthError.InvalidSignatureError := by
  simp [decode_token, getUnverifiedHeaderAlg, h]

/-- C1 (witness): the amended statement evaluated on the concrete
algorithm-substitution token. -/
theorem c1_witness :
    decode_token 0 (Wire.token { alg := "none", payload := samplePayload, sig := Sig.forged 0 })
      = Except.error AuthError.InvalidSignatureError :=
  c1_alg_mismatch 0 { alg := "none", payload := samplePayload, sig := Sig.forged 0 } (by decide)

/-- C2: the permission gate returns the user exactly when the required
set is a subset of the permission names held by the user id, and in
every other case it raises the 403 denial; extra held permissions never
cause failure, a single missing one does. -/
theorem c2_subset_check (st : PermState) (required : Finset String) (user : UserDTO) :
    (permission_checker_call st required user = Except.ok user ↔
      required ⊆ get_user_permissions st user.id) ∧
    (permission_checker_call st required user = Except.ok user ∨
      permission_checker_call st required user = Except.error 403) := by
  unfold permission_checker_call check_user_permissions
  by_cases hreq : required = ∅
  · subst hreq
    simp
  · simp only [if_neg hreq]
    by_cases hsub : required ⊆ get_user_permissions st user.id
    · simp [hsub]
    · simp [hsub]

/-- C3 (counterexample): issuing an access token with the two clock
reads one second apart (exp read at 0, iat read at 1) and decoding it
yields a payload whose exp minus iat is 3599, not the configured access
lifetime of 3600 — the claim, which demands exact equality, is false on
this input. -/
theorem c3_counterexample :
    decode_token 100 (generate_access_token 0 1 sampleDTO)
      = Except.ok { token_type := "access", user := { user_id := 1, user_name := "alice" },
                    exp := 3600, iat := 1 } ∧
    (3600 : Int) - 1 ≠ ACCESS_TOKEN_LIFETIME :=
  ⟨rfl, by decide⟩

/-- C3 (amended): decoding the token issued for a user by
generate_access_token, before it expires, yields a payload whose user id
and user name equal the fields of the user, whose token_type is access,
and whose exp minus iat equals the configured access lifetime minus the
delay between the two clock reads of the issuing call — so exactly the
configured lifetime precisely when both datetime.now readings fall on
the same timestamp. -/
theorem c3_roundtrip (dto : UserDTO) (t1 t2 now : Int)
    (h : now < t1 + ACCESS_TOKEN_LIFETIME) :
    decode_token now (generate_access_token t1 t2 dto)
      = Except.ok { token_type := "access"
                    user := { user_id := dto.id, user_name := dto.name }
                    exp := t1 + ACCESS_TOKEN_LIFETIME, iat := t2 } ∧
    (t1 + ACCESS_TOKEN_LIFETIME) - t2 = ACCESS_TOKEN_LIFETIME - (t2 - t1) := by
  refine ⟨?_, by omega⟩
  have hnot : ¬ (t1 + ACCESS_TOKEN_LIFETIME ≤ now) := by omega
  unfold generate_access_token encode_token jwtEncode decode_token getUnverifiedHeaderAlg jwtDecode
  simp [hnot]

/-- C3 (witness): the amended statement evaluated with both clock reads
at 0 and decode time 100. -/
theorem c3_witness :
    decode_token 100 (generate_access_token 0 0 sampleDTO)
      = Except.ok { token_type := "access"
                    user := { user_id := 1, user_name := "alice" }
                    exp := 0 + ACCESS_TOKEN_LIFETIME, iat := 0 } ∧
    ((0 : Int) + ACCESS_TOKEN_LIFETIME) - 0 = ACCESS_TOKEN_LIFETIME - (0 - 0) :=
  c3_roundtrip sampleDTO 0 0 100 (by decide)

/-- C4 (counterexample): a token whose exp is 0, earlier than the decode
time 100, but whose signature does not verify, makes decode_token fail
with InvalidToken rather than TokenExpired — the claim, which demands
TokenExpired for every token with exp in the past, is false on this
input. -/
theorem c4_counterexample :
    tamperedExpiredToken.payload.exp < 100 ∧
    decode_token 100 (Wire.token tamperedExpiredToken) = Except.error AuthError.InvalidToken ∧
    AuthError.InvalidToken ≠ AuthError.TokenExpired :=
  ⟨by decide, rfl, by decide⟩

/-- C4 (amended): every token whose header algorithm matches the
configured one and whose signature verifies under the configured key,
and whose exp is earlier than the decode time, fails with TokenExpired
and not InvalidToken; a token with exp in the past that also fails
signature verification fails with InvalidToken instead, because PyJWT
verifies the signature before it validates the exp claim. -/
theorem c4_expired (now : Int) (t : JwtToken)
    (halg : t.alg = ALGORITHM)
    (hsig : t.sig = Sig.hmac SECRET_KEY t.alg t.payload)
    (hexp : t.payload.exp < now) :
    decode_token now (Wire.token t) = Except.error AuthError.TokenExpired := by
  have hle : t.payload.exp ≤ now := by omega
  unfold decode_token getUnverifiedHeaderAlg jwtDecode
  simp [halg, hsig, hle]

/-- C4 (witness): the amended statement evaluated on a well-signed token
with exp 3600 decoded at time 4000. -/
theorem c4_witness :
    decode_token 4000 (Wire.token
      { alg := ALGORITHM, payload := samplePayload
        sig := Sig.hmac SECRET_KEY ALGORITHM samplePayload })
      = Except.error AuthError.TokenExpired :=
  c4_expired 4000
    { alg := ALGORITHM, payload := samplePayload
      sig := Sig.hmac SECRET_KEY ALGORITHM samplePayload }
    rfl rfl (by decide)

/-- C5: whenever the presented token decodes successfully but its
token_type is not refresh — in particular for every access token — the
refresh operation fails with InvalidToken and its effect trace is empty:
no user-store lookup and no token issuance happened. -/
theorem c5_wrong_type_rejected (store : UserStore) (now ta1 ta2 tr1 tr2 : Int)
    (w : Wire) (p : TokenPayload)
    (hdec : decode_token now w = Except.ok p)
    (hty : p.token_type ≠ "refresh") :
    refresh store now ta1 ta2 tr1 tr2 w
      = (Except.error (AppError.auth AuthError.InvalidToken), []) := by
  unfold refresh
  rw [hdec]
  simp [hty]

/-- C5 (witness): the statement evaluated on a freshly issued access
token presented to refresh. -/
theorem c5_witness :
    refresh [] 100 0 0 0 0 (generate_access_token 0 0 sampleDTO)
      = (Except.error (AppError.auth AuthError.InvalidToken), []) :=
  c5_wrong_type_rejected [] 100 0 0 0 0 (generate_access_token 0 0 sampleDTO)
    { token_type := "access", user := { user_id := 1, user_name := "alice" }
      exp := 3600, iat := 0 }
    rfl (by decide)

/-- C6: presenting an unexpired refresh token issued for a user whose
record exists, refresh returns a DTO holding exactly one token; that
token is an access token generated at the refresh-time clock reads, its
embedded user id equals the id of the user, and its token_type is
access, not refresh — so the result never contains a refresh token. -/
theorem c6_refresh_access_only (store : UserStore) (u : UserDTO)
    (tIss now ta1 ta2 tr1 tr2 : Int)
    (hget : repository_get store u.id = Except.ok u)
    (hfresh : now < tIss + REFRESH_TOKEN_LIFETIME) :
    (refresh store now ta1 ta2 tr1 tr2 (generate_refresh_token tIss tIss u)).1
      = Except.ok { access_token := generate_access_token ta1 ta2 u } ∧
    Option.map (fun p => p.user.user_id) (payloadOf (generate_access_token ta1 ta2 u))
      = some u.id ∧
    Option.map (fun p => p.token_type) (payloadOf (generate_access_token ta1 ta2 u))
      = some "access" ∧
    ("access" : String) ≠ "refresh" := by
  have hdec : decode_token now (generate_refresh_token tIss tIss u)
      = Except.ok { token_type := "refresh"
                    user := { user_id := u.id, user_name := u.name }
                    exp := tIss + REFRESH_TOKEN_LIFETIME, iat := tIss } := by
    have hnot : ¬ (tIss + REFRESH_TOKEN_LIFETIME ≤ now) := by omega
    unfold generate_refresh_token encode_token jwtEncode decode_token getUnverifiedHeaderAlg jwtDecode
    simp [hnot]
  refine ⟨?_, by simp [payloadOf, generate_access_token, encode_token, jwtEncode],
    by simp [payloadOf, generate_access_token, encode_token, jwtEncode], by decide⟩
  unfold refresh
  rw [hdec]
  simp [hget, create_tokens]

/-- C6 (witness): the statement evaluated with the store containing the
sample user, issuance at time 0, refresh at time 100. -/
theorem c6_witness :
    (refresh [sampleDTO] 100 7 7 7 7 (generate_refresh_token 0 0 sampleDTO)).1
      = Except.ok { access_token := generate_access_token 7 7 sampleDTO } ∧
    Option.map (fun p => p.user.user_id) (payloadOf (generate_access_token 7 7 sampleDTO))
      = some sampleDTO.id ∧
    Option.map (fun p => p.token_type) (payloadOf (generate_access_token 7 7 sampleDTO))
      = some "access" ∧
    ("access" : String) ≠ "refresh" :=
  c6_refresh_access_only [sampleDTO] sampleDTO 0 100 7 7 7 7 rfl (by decide)

/-- C7: for every permission store state and every identity, the check
with the empty required set returns True with the store-query flag
False — it passes without ever fetching the held permissions — and the
request-level checker admits the user. -/
theorem c7_empty_required (st : PermState) (user : UserDTO) :
    check_user_permissions st user.id ∅ = (true, false) ∧
    permission_checker_call st ∅ user = Except.ok user := by
  constructor
  · simp [check_user_permissions]
  · simp [permission_checker_call, check_user_permissions]

/-- C8: on any state in which the user and the permission both exist,
assigning a permission the user already holds returns the state
unchanged with no error, and revoking a permission the user does not
hold returns the state unchanged with no error. -/
theorem c8_assign_revoke_idempotent (st1 st2 : PermState) (uid : Int) (pname : String)
    (hu1 : uid ∈ st1.users) (hp1 : pname ∈ st1.permissions) (hh1 : pname ∈ heldOf st1 uid)
    (hu2 : uid ∈ st2.users) (hp2 : pname ∈ st2.permissions) (hh2 : pname ∉ heldOf st2 uid) :
    assign_to_user st1 uid pname = Except.ok st1 ∧
    revoke_from_user st2 uid pname = Except.ok st2 := by
  constructor
  · simp [assign_to_user, hu1, hp1, hh1]
  · simp [revoke_from_user, hu2, hp2, hh2]

/-- C8 (witness): the statement evaluated on sample states where user 1
already holds, respectively does not hold, the permission. -/
theorem c8_witness :
    assign_to_user samplePermState 1 "emoji:create" = Except.ok samplePermState ∧
    revoke_from_user samplePermStateEmpty 1 "emoji:create" = Except.ok samplePermStateEmpty :=
  c8_assign_revoke_idempotent samplePermState samplePermStateEmpty 1 "emoji:create"
    (by decide) (by decide) (by decide) (by decide) (by decide) (by decide)

/-- C9 (counterexample): a valid unexpired access token for user id 1
presented against an empty user store makes get_current_user fail with
UserNotFound, yet authenticated_user surfaces it as HTTP 401, not 404 —
the claim, which demands that UserNotFound always map to 404, is false
on this input. -/
theorem c9_counterexample :
    get_current_user [] 100 (generate_access_token 0 0 sampleDTO)
      = Except.error AppError.userNotFound ∧
    authenticated_user [] 100 (some (generate_access_token 0 0 sampleDTO))
      = Except.error 401 ∧
    (401 : Nat) ≠ 404 :=
  ⟨rfl, rfl, by decide⟩

/-- C9 (amended): the application-level handlers map each typed failure
to its fixed status — 409 for duplicate creation, 401 for auth errors,
404 for missing entities, 400 for malformed input and pagination
errors, 500 for anything unclassified — but every failure raised while
resolving the identity from the access token, UserNotFound included, is
caught inside authenticated_user and mapped to 401, so UserNotFound
reaches its 404 handler only outside token-based identity resolution. -/
theorem c9_boundary_mapping :
    (handler_status Exc.AlreadyExistError = 409 ∧
     handler_status Exc.PermissionAlreadyExists = 409 ∧
     (∀ e : AuthError, handler_status (Exc.AuthFailure e) = 401) ∧
     handler_status Exc.UserNotFoundExc = 404 ∧
     handler_status Exc.PermissionNotFoundExc = 404 ∧
     handler_status Exc.PaginationError = 400 ∧
     handler_status Exc.SeveralAnswersFound = 400 ∧
     handler_status Exc.ValidationError = 400 ∧
     handler_status Exc.OtherException = 500) ∧
    (∀ (store : UserStore) (now : Int) (w : Wire) (err : AppError),
      get_current_user store now w = Except.error err →
      authenticated_user store now (some w) = Except.error 401) := by
  refine ⟨⟨rfl, rfl, fun e => rfl, rfl, rfl, rfl, rfl, rfl, rfl⟩, ?_⟩
  intro store now w err h
  unfold authenticated_user
  simp [h]

/-- C9 (witness): the amended statement evaluated on UserNotFound at
the handler table and on a concrete identity-resolution failure. -/
theorem c9_witness :
    handler_status Exc.UserNotFoundExc = 404 ∧
    authenticated_user [] 100 (some (generate_access_token 0 0 sampleDTO))
      = Except.error 401 :=
  ⟨c9_boundary_mapping.1.2.2.2.1,
   c9_boundary_mapping.2 [] 100 (generate_access_token 0 0 sampleDTO)
     AppError.userNotFound rfl⟩

/-- C10: the Argon2 salt being fixed to the configured secret key,
hashing is deterministic — the digest does not depend on the RNG state
of the call — and two users registered with equal passwords receive
equal stored digests whatever their other fields, their assigned ids,
or the RNG states of the two hashing calls. -/
theorem c10_hash_deterministic (r1 r2 p : String) (i1 i2 : Int) (e1 e2 : UserEntity)
    (hpw : e1.password = e2.password) :
    hash_password r1 p = hash_password r2 p ∧
    (user_service_create r1 i1 e1).password = (user_service_create r2 i2 e2).password := by
  constructor
  · rfl
  · simp [user_service_create, hash_password, hasherHash, hpw]

/-- C10 (witness): the statement evaluated on two entities sharing a
password but nothing else, hashed under different RNG states. -/
theorem c10_witness :
    hash_password "rngA" "pw12345678" = hash_password "rngB" "pw12345678" ∧
    (user_service_create "rngA" 1 sampleEntity).password
      = (user_service_create "rngB" 2 sampleEntity2).password :=
  c10_hash_deterministic "rngA" "rngB" "pw12345678" 1 2 sampleEntity sampleEntity2 rfl

end EmojiHub
